import Mathlib

/-!
Verification of the startup-validator Streamlit application (src/agent.py).

The application is a single-page form that collects a startup idea, a
target-user description and optional market context, then delegates the
evaluation to an external tool-calling agent.  We embed the pure parts of
the script directly (the user-segment expander, the configuration
constants, the input template) and model one run of the script body as a
function from the environment, the submitted form, the current
conversation history and the outcome of the (external) agent invocation
to the resulting session state and UI effects.
-/

/-- Roles of conversation-history entries (`("human", …)` / `("assistant", …)`
tuples in src/agent.py, lines 143-144). -/
inductive Role where
  | human
  | assistant
deriving DecidableEq

/-- Process environment: the two credentials read with `os.getenv`
(src/agent.py, lines 15-16); `none` models an absent variable. -/
structure Env where
  groq_api_key : Option String
  tavily_api_key : Option String

/-- One submission of the form: the three input fields and whether the
Analyze button was activated (src/agent.py, lines 34-49).  Streamlit text
widgets yield `""` when left empty. -/
structure Submission where
  idea : String
  target_users : String
  market_info : String
  analyze_btn : Bool

/-- Outcome of the external `agent_executor.invoke` call: either the output
text of the response, or the message of the raised exception
(src/agent.py, lines 136-152). -/
inductive AgentOutcome where
  | ok (output : String)
  | err (msg : String)

/-- Configuration of the `ChatGroq` reasoning engine (src/agent.py,
lines 99-104).  The temperature literal `0.6` is modelled as the rational
number it denotes. -/
structure LLMConfig where
  model_name : String
  temperature : Rat
  max_tokens : Nat

/-- Configuration of the `TavilySearchResults` search tool (src/agent.py,
lines 52-56). -/
structure TavilyConfig where
  max_results : Nat
  include_answer : Bool

/-- Configuration of the `AgentExecutor` built by `create_agent`
(src/agent.py, lines 107-113). -/
structure ExecutorConfig where
  llm : LLMConfig
  verbose : Bool
  max_iterations : Nat
  handle_parsing_errors : Bool

/-- The search tool configuration: `TavilySearchResults(max_results=5,
include_answer=True)` (src/agent.py, lines 52-56). -/
def tavily_tool : TavilyConfig :=
  { max_results := 5
    include_answer := true }

/-- The agent constructed by `create_agent` (src/agent.py, lines 98-114):
a `ChatGroq` engine at temperature 0.6 with 1024 max tokens, wrapped in an
`AgentExecutor` capped at 3 iterations. -/
def create_agent : ExecutorConfig :=
  { llm :=
      { model_name := "llama-3.3-70b-versatile"
        temperature := 0.6
        max_tokens := 1024 }
    verbose := false
    max_iterations := 3
    handle_parsing_errors := true }

/-- Python `str.lower()`: lower-case every character of the string
(character-wise, so that the definition reduces structurally). -/
def pyLower (s : String) : String :=
  ⟨s.data.map Char.toLower⟩

/-- Python `str.strip()`: drop leading and trailing whitespace
(whitespace per `Char.isWhitespace`). -/
def pyStrip (s : String) : String :=
  ⟨((s.data.dropWhile Char.isWhitespace).reverse.dropWhile Char.isWhitespace).reverse⟩

/-- The `expand_target_users` tool (src/agent.py, lines 58-72): lower-cases
the label, looks it up in a fixed three-entry mapping, and falls back to a
templated sentence embedding the original label. -/
def expand_target_users (user_group : String) : String :=
  let key := pyLower user_group
  if key = "students" then
    "College students, High school students, Exam aspirants, Skill learners"
  else if key = "business owners" then
    "Small business owners, Entrepreneurs, Startup founders"
  else if key = "developers" then
    "Software developers, Programmers, Data scientists"
  else
    "Expanded users for \x27" ++ user_group ++ "\x27 could include a broader audience."

/-- Python truthiness of an optional environment string: `not x` is true
exactly when the variable is absent or the empty string
(src/agent.py, line 18). -/
def credPresent : Option String → Bool
  | none => false
  | some s => !(s = "")

/-- Guard of the startup credential check `if not groq_api_key or not
tavily_api_key` (src/agent.py, line 18): `true` when the script survives
`st.stop()`. -/
def startupOk (env : Env) : Bool :=
  credPresent env.groq_api_key && credPresent env.tavily_api_key

/-- The f-string assembled for the agent (src/agent.py, lines 129-133):
a triple-quoted template with one line per field, substituting
`None provided` when `market_info` is falsy (the empty string). -/
def user_input (idea target_users market_info : String) : String :=
  "\nStartup Idea: " ++ idea ++
  "\nTarget Users: " ++ target_users ++
  "\nMarket Info: " ++ (if market_info = "" then "None provided" else market_info) ++
  "\n"

/-- Rendering of the result (src/agent.py, lines 147-149): the output is
split on newlines and every non-blank line becomes one markdown block. -/
def renderLines (output_text : String) : List String :=
  (output_text.splitOn "\n").filter (fun line => !(pyStrip line = ""))

/-- Observable result of one run of the script body: whether `st.stop()`
halted it, whether the startup configuration error, the blank-field
warning or the agent-failure error message was shown, whether `invoke` was
called and with which input text, the markdown blocks rendered, and the
resulting `st.session_state.chat_history`. -/
structure RunResult where
  halted : Bool
  configErrorShown : Bool
  warningShown : Bool
  errorShown : Bool
  agentInvoked : Bool
  agentInput : Option String
  renderedLines : List String
  chat_history : List (Role × String)

/-- One run of `main` (src/agent.py, lines 11-152) after session state is
in place: check credentials (halting on failure), do nothing unless the
Analyze button fired, warn on a blank required field, otherwise invoke the
agent with the assembled input; on success append the (human, assistant)
pair to the history and render the output, on an exception show an error
and leave the history untouched. -/
def runMain (env : Env) (sub : Submission) (hist : List (Role × String))
    (outcome : AgentOutcome) : RunResult :=
  if !(startupOk env) then
    { halted := true, configErrorShown := true
      warningShown := false, errorShown := false
      agentInvoked := false, agentInput := none
      renderedLines := [], chat_history := hist }
  else if !sub.analyze_btn then
    { halted := false, configErrorShown := false
      warningShown := false, errorShown := false
      agentInvoked := false, agentInput := none
      renderedLines := [], chat_history := hist }
  else if pyStrip sub.idea = "" ∨ pyStrip sub.target_users = "" then
    { halted := false, configErrorShown := false
      warningShown := true, errorShown := false
      agentInvoked := false, agentInput := none
      renderedLines := [], chat_history := hist }
  else
    let input := user_input sub.idea sub.target_users sub.market_info
    match outcome with
    | AgentOutcome.ok out =>
      { halted := false, configErrorShown := false
        warningShown := false, errorShown := false
        agentInvoked := true, agentInput := some input
        renderedLines := renderLines out
        chat_history := hist ++ [(Role.human, input), (Role.assistant, out)] }
    | AgentOutcome.err _ =>
      { halted := false, configErrorShown := false
        warningShown := false, errorShown := true
        agentInvoked := true, agentInput := some input
        renderedLines := [], chat_history := hist }

/-- A whole session: the history starts as `[]` (src/agent.py, line 121)
and each interaction rewrites it to the history produced by one run of the
script body. -/
def runSession (env : Env) (steps : List (Submission × AgentOutcome))
    (hist : List (Role × String)) : List (Role × String) :=
  steps.foldl (fun h step => (runMain env step.1 h step.2).chat_history) hist

/-- History shape invariant: the list is a sequence of consecutive
(human, assistant) pairs. -/
def pairedHistory : List (Role × String) → Bool
  | [] => true
  | (Role.human, _) :: (Role.assistant, _) :: rest => pairedHistory rest
  | _ => false

/-- One decision of the external reasoning engine (spec §4.3): emit a
final answer, request a tool call, or emit unparsable output that the
recovery step turns back into a fresh decision. -/
inductive EngineStep where
  | finalAnswer (text : String)
  | toolCall (toolName arg : String)
  | unparsable

/-- Tool Invocation Record (spec §3): which tool was called, with what
argument, and what it returned. -/
structure ToolRecord where
  toolName : String
  arg : String
  result : String

/-- Terminal condition of the reasoning loop (spec §4.3):
a final answer, or the iteration cap forcing termination. -/
inductive LoopOutcome where
  | finalAnswer (text : String)
  | iterationLimit

/-- Modelled from the spec: the bounded-iteration reasoning loop of the
external `AgentExecutor` library (spec §4.3), which is consumed, not
built, in this repository; only its configuration (the iteration cap and
parsing-error recovery, src/agent.py lines 107-113) is in src.  The engine
is an arbitrary function from the accumulated scratchpad to a decision;
each loop iteration (a tool call, or a recovered parse error) consumes one
unit of the cap, and exhausting the cap terminates the loop. -/
def runLoop (engine : List ToolRecord → EngineStep)
    (execTool : String → String → String) :
    Nat → List ToolRecord → LoopOutcome × List ToolRecord
  | 0, pad => (LoopOutcome.iterationLimit, pad)
  | fuel + 1, pad =>
    match engine pad with
    | EngineStep.finalAnswer t => (LoopOutcome.finalAnswer t, pad)
    | EngineStep.unparsable => runLoop engine execTool fuel pad
    | EngineStep.toolCall n a =>
      runLoop engine execTool fuel (pad ++ [⟨n, a, execTool n a⟩])

/-- One agent request: the loop starts with an empty scratchpad and runs
under the iteration cap configured in `create_agent`
(src/agent.py, line 111). -/
def runAgentRequest (engine : List ToolRecord → EngineStep)
    (execTool : String → String → String) : LoopOutcome × List ToolRecord :=
  runLoop engine execTool create_agent.max_iterations []

theorem runLoop_length_le (engine : List ToolRecord → EngineStep)
    (execTool : String → String → String) (fuel : Nat) :
    ∀ pad : List ToolRecord,
      ((runLoop engine execTool fuel pad).2).length ≤ pad.length + fuel := by
  induction fuel with
  | zero => intro pad; simp [runLoop]
  | succ n ih =>
    intro pad
    rw [runLoop]
    cases h : engine pad with
    | finalAnswer t => simp
    | unparsable => exact Nat.le_trans (ih pad) (by omega)
    | toolCall nm a =>
      dsimp only
      have hlen := ih (pad ++ [⟨nm, a, execTool nm a⟩])
      simp at hlen
      omega

theorem pairedHistory_append_pair :
    ∀ (h : List (Role × String)) (a b : String), pairedHistory h = true →
      pairedHistory (h ++ [(Role.human, a), (Role.assistant, b)]) = true := by
  intro h
  induction h using pairedHistory.induct <;>
    intro a b hp <;> simp_all [pairedHistory]

theorem pairedHistory_even :
    ∀ h : List (Role × String), pairedHistory h = true → 2 ∣ h.length := by
  intro h
  induction h using pairedHistory.induct <;> simp_all [pairedHistory]

theorem runMain_chat_history_cases (env : Env) (sub : Submission)
    (hist : List (Role × String)) (out : AgentOutcome) :
    (runMain env sub hist out).chat_history = hist ∨
    ∃ i o, (runMain env sub hist out).chat_history =
      hist ++ [(Role.human, i), (Role.assistant, o)] := by
  cases out with
  | ok o =>
    unfold runMain
    split_ifs <;> simp
  | err m =>
    unfold runMain
    split_ifs <;> simp

theorem runSession_paired (env : Env) :
    ∀ (steps : List (Submission × AgentOutcome)) (hist : List (Role × String)),
      pairedHistory hist = true → pairedHistory (runSession env steps hist) = true := by
  intro steps
  induction steps with
  | nil => intro hist h; simpa [runSession] using h
  | cons s rest ih =>
    intro hist h
    simp only [runSession, List.foldl_cons] at ih ⊢
    apply ih
    rcases runMain_chat_history_cases env s.1 hist s.2 with hc | ⟨i, o, hc⟩
    · rw [hc]; exact h
    · rw [hc]; exact pairedHistory_append_pair hist i o h

/-- C1: for every submission where the idea field or the target_users field
is empty or whitespace-only after trimming, the Session Controller shows a
warning, performs no agent invocation, and leaves the conversation history
unchanged (src/agent.py, lines 124-126). -/
theorem blank_required_fields_warn_and_skip_agent
    (env : Env) (sub : Submission) (hist : List (Role × String)) (out : AgentOutcome)
    (hok : startupOk env = true) (hbtn : sub.analyze_btn = true)
    (hblank : pyStrip sub.idea = "" ∨ pyStrip sub.target_users = "") :
    (runMain env sub hist out).warningShown = true ∧
    (runMain env sub hist out).agentInvoked = false ∧
    (runMain env sub hist out).chat_history = hist := by
  rcases hblank with h | h <;> cases out <;> simp [runMain, hok, hbtn, h]

theorem blank_required_fields_warn_and_skip_agent_witness :
    startupOk ⟨some "g", some "t"⟩ = true ∧
    (Submission.mk " \t " "students" "" true).analyze_btn = true ∧
    pyStrip " \t " = "" ∧
    ((runMain ⟨some "g", some "t"⟩ (Submission.mk " \t " "students" "" true)
        ([] : List (Role × String)) (AgentOutcome.ok "r")).warningShown = true ∧
      (runMain ⟨some "g", some "t"⟩ (Submission.mk " \t " "students" "" true)
        ([] : List (Role × String)) (AgentOutcome.ok "r")).agentInvoked = false ∧
      (runMain ⟨some "g", some "t"⟩ (Submission.mk " \t " "students" "" true)
        ([] : List (Role × String)) (AgentOutcome.ok "r")).chat_history = []) :=
  ⟨by decide, rfl, by decide,
    blank_required_fields_warn_and_skip_agent ⟨some "g", some "t"⟩
      (Submission.mk " \t " "students" "" true) [] (AgentOutcome.ok "r")
      (by decide) rfl (Or.inl (by decide))⟩

/-- C2: for every successful agent invocation triggered by the Analyze
button, the conversation history grows by exactly two entries, first the
(human, input) entry and then the (assistant, output) entry
(src/agent.py, lines 136-144). -/
theorem successful_invocation_appends_two_entries
    (env : Env) (sub : Submission) (hist : List (Role × String)) (out : String)
    (hok : startupOk env = true) (hbtn : sub.analyze_btn = true)
    (hidea : pyStrip sub.idea ≠ "") (husers : pyStrip sub.target_users ≠ "") :
    (runMain env sub hist (AgentOutcome.ok out)).chat_history =
      hist ++ [(Role.human, user_input sub.idea sub.target_users sub.market_info),
               (Role.assistant, out)] ∧
    (runMain env sub hist (AgentOutcome.ok out)).chat_history.length =
      hist.length + 2 := by
  simp [runMain, hok, hbtn, hidea, husers]

theorem successful_invocation_appends_two_entries_witness :
    startupOk ⟨some "g", some "t"⟩ = true ∧
    (Submission.mk "An app" "students" "" true).analyze_btn = true ∧
    pyStrip "An app" ≠ "" ∧
    pyStrip "students" ≠ "" ∧
    ((runMain ⟨some "g", some "t"⟩ (Submission.mk "An app" "students" "" true)
        ([] : List (Role × String)) (AgentOutcome.ok "Fine")).chat_history =
      [] ++ [(Role.human, user_input "An app" "students" ""),
             (Role.assistant, "Fine")] ∧
      (runMain ⟨some "g", some "t"⟩ (Submission.mk "An app" "students" "" true)
        ([] : List (Role × String)) (AgentOutcome.ok "Fine")).chat_history.length =
        ([] : List (Role × String)).length + 2) :=
  ⟨by decide, rfl, by decide, by decide,
    successful_invocation_appends_two_entries ⟨some "g", some "t"⟩
      (Submission.mk "An app" "students" "" true) [] "Fine"
      (by decide) rfl (by decide) (by decide)⟩

/-- C3: for every agent invocation that raises an exception, the
conversation history is left unchanged, an error message is displayed, and
the session is not halted (the exception is caught at the invocation call
site, src/agent.py, lines 135-152; totality of `runMain` models the
absence of a crash). -/
theorem failed_invocation_preserves_history
    (env : Env) (sub : Submission) (hist : List (Role × String)) (msg : String)
    (hok : startupOk env = true) (hbtn : sub.analyze_btn = true)
    (hidea : pyStrip sub.idea ≠ "") (husers : pyStrip sub.target_users ≠ "") :
    (runMain env sub hist (AgentOutcome.err msg)).chat_history = hist ∧
    (runMain env sub hist (AgentOutcome.err msg)).errorShown = true ∧
    (runMain env sub hist (AgentOutcome.err msg)).halted = false := by
  simp [runMain, hok, hbtn, hidea, husers]

theorem failed_invocation_preserves_history_witness :
    startupOk ⟨some "g", some "t"⟩ = true ∧
    (Submission.mk "An app" "students" "" true).analyze_btn = true ∧
    pyStrip "An app" ≠ "" ∧
    pyStrip "students" ≠ "" ∧
    ((runMain ⟨some "g", some "t"⟩ (Submission.mk "An app" "students" "" true)
        [(Role.human, "a"), (Role.assistant, "b")]
        (AgentOutcome.err "boom")).chat_history =
      [(Role.human, "a"), (Role.assistant, "b")] ∧
      (runMain ⟨some "g", some "t"⟩ (Submission.mk "An app" "students" "" true)
        [(Role.human, "a"), (Role.assistant, "b")]
        (AgentOutcome.err "boom")).errorShown = true ∧
      (runMain ⟨some "g", some "t"⟩ (Submission.mk "An app" "students" "" true)
        [(Role.human, "a"), (Role.assistant, "b")]
        (AgentOutcome.err "boom")).halted = false) :=
  ⟨by decide, rfl, by decide, by decide,
    failed_invocation_preserves_history ⟨some "g", some "t"⟩
      (Submission.mk "An app" "students" "" true)
      [(Role.human, "a"), (Role.assistant, "b")] "boom"
      (by decide) rfl (by decide) (by decide)⟩

/-- C4: for every single request, the reasoning loop performs at most 3
tool-call iterations before it is forced to terminate, regardless of the
decisions of the reasoning engine (iteration cap configured in
src/agent.py, line 111; loop modelled from spec §4.3). -/
theorem reasoning_loop_at_most_three_tool_calls
    (engine : List ToolRecord → EngineStep)
    (execTool : String → String → String) :
    ((runAgentRequest engine execTool).2).length ≤ 3 := by
  have h := runLoop_length_le engine execTool create_agent.max_iterations []
  simpa [runAgentRequest, create_agent] using h

/-- C5: the user-segment expander maps any casing of the label "students"
to exactly the fixed expansion string, and maps any label whose lower-cased
form is none of the known keys to a string embedding the original
(non-normalized) label in the fallback template
(src/agent.py, lines 58-72). -/
theorem expander_students_fixed_and_unknown_fallback :
    (∀ g : String, pyLower g = "students" →
      expand_target_users g =
        "College students, High school students, Exam aspirants, Skill learners") ∧
    (∀ g : String, pyLower g ≠ "students" → pyLower g ≠ "business owners" →
      pyLower g ≠ "developers" →
      ∃ pre post, expand_target_users g = pre ++ g ++ post) := by
  constructor
  · intro g h
    simp [expand_target_users, h]
  · intro g h1 h2 h3
    refine ⟨"Expanded users for \x27",
      "\x27 could include a broader audience.", ?_⟩
    simp [expand_target_users, h1, h2, h3]

theorem expander_students_fixed_and_unknown_fallback_witness :
    (pyLower "STUDENTS" = "students" ∧
      expand_target_users "STUDENTS" =
        "College students, High school students, Exam aspirants, Skill learners") ∧
    (pyLower "gamers" ≠ "students" ∧
      ∃ pre post, expand_target_users "gamers" = pre ++ "gamers" ++ post) :=
  ⟨⟨by decide,
      expander_students_fixed_and_unknown_fallback.1 "STUDENTS" (by decide)⟩,
    ⟨by decide,
      expander_students_fixed_and_unknown_fallback.2 "gamers"
        (by decide) (by decide) (by decide)⟩⟩

/-- C6: the user-segment expander is a total function over all text inputs:
for every input string it returns some string (it is a plain function with
no failure mode). -/
theorem expand_target_users_total (g : String) :
    ∃ s : String, expand_target_users g = s :=
  ⟨expand_target_users g, rfl⟩

/-- C7: if either required credential is absent from the environment,
startup halts with a configuration error before any interaction, and no
agent invocation can occur (src/agent.py, lines 15-20). -/
theorem missing_credentials_halt_startup
    (env : Env) (sub : Submission) (hist : List (Role × String)) (out : AgentOutcome)
    (habs : env.groq_api_key = none ∨ env.tavily_api_key = none) :
    (runMain env sub hist out).halted = true ∧
    (runMain env sub hist out).configErrorShown = true ∧
    (runMain env sub hist out).agentInvoked = false := by
  rcases habs with h | h <;>
    simp [runMain, startupOk, credPresent, h]

theorem missing_credentials_halt_startup_witness :
    ((Env.mk none (some "t")).groq_api_key = none ∨
      (Env.mk none (some "t")).tavily_api_key = none) ∧
    ((runMain (Env.mk none (some "t")) (Submission.mk "i" "u" "" true)
        ([] : List (Role × String)) (AgentOutcome.ok "r")).halted = true ∧
      (runMain (Env.mk none (some "t")) (Submission.mk "i" "u" "" true)
        ([] : List (Role × String)) (AgentOutcome.ok "r")).configErrorShown = true ∧
      (runMain (Env.mk none (some "t")) (Submission.mk "i" "u" "" true)
        ([] : List (Role × String)) (AgentOutcome.ok "r")).agentInvoked = false) :=
  ⟨Or.inl rfl,
    missing_credentials_halt_startup (Env.mk none (some "t"))
      (Submission.mk "i" "u" "" true) [] (AgentOutcome.ok "r") (Or.inl rfl)⟩

/-- C8: the reasoning engine is configured with temperature 0.6 and
maximum output length 1024 tokens, and the search tool with at most 5
results and an included synthesized answer (src/agent.py, lines 52-56 and
99-104). -/
theorem fixed_engine_and_search_configuration :
    create_agent.llm.temperature = 0.6 ∧
    create_agent.llm.max_tokens = 1024 ∧
    tavily_tool.max_results = 5 ∧
    tavily_tool.include_answer = true :=
  ⟨rfl, rfl, rfl, rfl⟩

/-- C9: for every valid submission, the text passed to the agent is the
fixed three-line template embedding idea, target_users and market_info,
with the literal text `None provided` substituted when market_info is
empty (src/agent.py, lines 129-133). -/
theorem valid_submission_agent_input_template
    (env : Env) (sub : Submission) (hist : List (Role × String)) (out : AgentOutcome)
    (hok : startupOk env = true) (hbtn : sub.analyze_btn = true)
    (hidea : pyStrip sub.idea ≠ "") (husers : pyStrip sub.target_users ≠ "") :
    (runMain env sub hist out).agentInput =
      some ("\nStartup Idea: " ++ sub.idea ++
        "\nTarget Users: " ++ sub.target_users ++
        "\nMarket Info: " ++
        (if sub.market_info = "" then "None provided" else sub.market_info) ++
        "\n") ∧
    (sub.market_info = "" →
      ∃ pre post,
        (runMain env sub hist out).agentInput =
          some (pre ++ "None provided" ++ post)) := by
  constructor
  · cases out <;> simp [runMain, user_input, hok, hbtn, hidea, husers]
  · intro hmi
    refine ⟨"\nStartup Idea: " ++ sub.idea ++ "\nTarget Users: " ++
      sub.target_users ++ "\nMarket Info: ", "\n", ?_⟩
    cases out <;> simp [runMain, user_input, hok, hbtn, hidea, husers, hmi]

theorem valid_submission_agent_input_template_witness :
    startupOk ⟨some "g", some "t"⟩ = true ∧
    (Submission.mk "An app" "students" "" true).analyze_btn = true ∧
    pyStrip "An app" ≠ "" ∧
    pyStrip "students" ≠ "" ∧
    (Submission.mk "An app" "students" "" true).market_info = "" ∧
    ((runMain ⟨some "g", some "t"⟩ (Submission.mk "An app" "students" "" true)
        ([] : List (Role × String)) (AgentOutcome.ok "Fine")).agentInput =
      some ("\nStartup Idea: " ++ "An app" ++
        "\nTarget Users: " ++ "students" ++
        "\nMarket Info: " ++
        (if ("" : String) = "" then "None provided" else "") ++
        "\n") ∧
      ∃ pre post,
        (runMain ⟨some "g", some "t"⟩ (Submission.mk "An app" "students" "" true)
          ([] : List (Role × String)) (AgentOutcome.ok "Fine")).agentInput =
          some (pre ++ "None provided" ++ post)) :=
  ⟨by decide, rfl, by decide, by decide, rfl,
    (valid_submission_agent_input_template ⟨some "g", some "t"⟩
      (Submission.mk "An app" "students" "" true) [] (AgentOutcome.ok "Fine")
      (by decide) rfl (by decide) (by decide)).1,
    (valid_submission_agent_input_template ⟨some "g", some "t"⟩
      (Submission.mk "An app" "students" "" true) [] (AgentOutcome.ok "Fine")
      (by decide) rfl (by decide) (by decide)).2 rfl⟩

/-- C10: after every interaction of a session started with an empty
history, the conversation history has even length and consists of
consecutive (human, assistant) pairs, and each interaction only ever
appends to the history (src/agent.py, lines 120-144). -/
theorem history_alternating_pairs_append_only :
    (∀ (env : Env) (steps : List (Submission × AgentOutcome)),
      pairedHistory (runSession env steps []) = true ∧
      2 ∣ (runSession env steps []).length) ∧
    (∀ (env : Env) (sub : Submission) (hist : List (Role × String))
        (out : AgentOutcome),
      ∃ t, (runMain env sub hist out).chat_history = hist ++ t) := by
  constructor
  · intro env steps
    have hp : pairedHistory (runSession env steps []) = true :=
      runSession_paired env steps [] rfl
    exact ⟨hp, pairedHistory_even _ hp⟩
  · intro env sub hist out
    rcases runMain_chat_history_cases env sub hist out with hc | ⟨i, o, hc⟩
    · exact ⟨[], by simpa using hc⟩
    · exact ⟨[(Role.human, i), (Role.assistant, o)], hc⟩
